import Mathlib

/-!
Shallow embedding of the Sub-Saharan Crop Forecast Viewer
(src/app.py and src/visualizations.py).

The program is a Streamlit presentation layer over pre-computed tables.
We embed its tables as lists of records, its pandas filters as
List.filter, the pandas unique operation as a first-occurrence
deduplication, the choropleth construction in create_map as a pure
function into a Figure record, the Historical Forecasts page script as a
function returning Except (st.stop is the error branch), the
session-state choropleth as an Option Figure threaded through a step
function, and the st.cache_resource memoization of create_map as an
explicit association-list cache.

Numeric dataframe columns (yields, errors, centroids) are embedded as
rationals; the year column of the forecast table, which pandas holds as
a nullable column subjected to dropna, is embedded as Option Int.
-/

/-- A row of the gdf geometry collection
(data/gscd_shape_simplified.gpkg): region id, admin names, centroid. -/
structure Region where
  fnid : String
  admin0 : String
  admin1 : String
  admin2 : String
  centroid_lat : ℚ
  centroid_lon : ℚ
deriving DecidableEq

/-- A row of the viewer_yield table: one observed yield per region per
year. -/
structure YieldObservation where
  fnid : String
  year : Int
  yield_obs : ℚ
deriving DecidableEq

/-- A row of the cape_eo table: per-region, per-date values of the seven
earth-observation predictor variables. Dates are embedded as integer
ordinals, which preserves their ordering. -/
structure EOObservation where
  fnid : String
  date : Int
  ndvi : ℚ
  prcp : ℚ
  pdry : ℚ
  etos : ℚ
  tavg : ℚ
  gdd : ℚ
  kdd : ℚ
deriving DecidableEq

/-- A row of the yield_fcst table (viewer_yield_fcst_error.parquet).
The year column is nullable (app.py applies dropna to it), hence
Option Int. The three metric columns are the non-key columns of the
table, from which the Variable selector options are drawn. -/
structure ForecastRecord where
  fnid : String
  country : String
  admin1 : String
  admin2 : String
  season : String
  year : Option Int
  model : String
  lead : Int
  yield_fcst : ℚ
  yield_fcst_error : ℚ
  yield_fcst_perror : ℚ
deriving DecidableEq

/-- Column access df[v] on the forecast table, restricted to the three
metric columns offered by the Variable selector; other names yield a
junk value (in the program they are unreachable, since the selectbox
only offers existing columns). -/
def colVal (v : String) (r : ForecastRecord) : ℚ :=
  if v = "yield_fcst" then r.yield_fcst
  else if v = "yield_fcst_error" then r.yield_fcst_error
  else if v = "yield_fcst_perror" then r.yield_fcst_perror
  else 0

/-- The label_map dictionary of create_map (visualizations.py lines
70-76), including the .get default (selected_variable, ""). -/
def label_map (v : String) : String × String :=
  if v = "yield_fcst" then ("Forecast Yield", "t/ha")
  else if v = "yield_fcst_error" then ("Forecast Error", "t/ha")
  else if v = "yield_fcst_perror" then ("Percent Error", "%")
  else (v, "")

/-- The conjunctive selector filter of create_map (visualizations.py
lines 79-86): the pandas query
fnid in country_fnids and season, year, model, lead each equal to the
selected value. A null year never equals a selected year. -/
def filterForecast (yield_fcst : List ForecastRecord)
    (country_fnids : List String) (selected_season : String)
    (selected_year : Int) (selected_model : String)
    (selected_lead : Int) : List ForecastRecord :=
  yield_fcst.filter fun r =>
    decide (r.fnid ∈ country_fnids) && (r.season == selected_season)
      && (r.year == some selected_year) && (r.model == selected_model)
      && (r.lead == selected_lead)

/-- One plotly Choroplethmapbox trace as added by create_map
(visualizations.py lines 108-121): the per-row fnid locations, metric
values, admin1 tooltip texts, and the constant styling arguments. -/
structure Trace where
  geojson : String
  locations : List String
  z : List ℚ
  featureidkey : String
  colorscale : String
  colorbar_title : String
  text : List String
deriving DecidableEq

/-- The figure layout set by fig.update_layout (visualizations.py lines
129-134). mapbox_center is none when the country has no gdf rows (the
pandas mean of an empty series, NaN). -/
structure MapLayout where
  mapbox_style : String
  mapbox_zoom : Int
  mapbox_center : Option (ℚ × ℚ)
deriving DecidableEq

/-- A plotly figure: its traces and its layout. -/
structure Figure where
  traces : List Trace
  layout : MapLayout
deriving DecidableEq

/-- The map center computed by create_map (visualizations.py lines
125-127): the mean of centroid_lat and of centroid_lon over the gdf
rows whose admin0 equals the selected country; none models the NaN
produced by the mean of an empty selection. -/
def countryCenter (gdf : List Region) (selected_country : String) :
    Option (ℚ × ℚ) :=
  let country_gdf := gdf.filter fun g => g.admin0 == selected_country
  if country_gdf.isEmpty then none
  else some
    ((country_gdf.map Region.centroid_lat).sum / (country_gdf.length : ℚ),
     (country_gdf.map Region.centroid_lon).sum / (country_gdf.length : ℚ))

/-- create_map (visualizations.py lines 66-136), with the arguments in
source order. It filters the forecast table by the five selector
predicates, adds one choropleth trace only when the filtered subset is
non-empty, and always sets the layout centered on the mean centroid of
the selected country. Layer 1 of the two-layer map is commented out in
the source and therefore absent here. -/
def create_map (yield_fcst : List ForecastRecord) (geojson : String)
    (gdf : List Region) (selected_variable : String)
    (country_fnids : List String) (selected_country : String)
    (selected_season : String) (selected_year : Int)
    (selected_model : String) (selected_lead : Int) : Figure :=
  let labels := label_map selected_variable
  let df_filt := filterForecast yield_fcst country_fnids selected_season
    selected_year selected_model selected_lead
  let traces : List Trace :=
    if df_filt.isEmpty then []
    else [{ geojson := geojson
            locations := df_filt.map ForecastRecord.fnid
            z := df_filt.map (colVal selected_variable)
            featureidkey := "properties.fnid"
            colorscale := "RdYlBu"
            colorbar_title := labels.1
            text := df_filt.map ForecastRecord.admin1 }]
  { traces := traces
    layout := { mapbox_style := "carto-positron"
                mapbox_zoom := 4
                mapbox_center := countryCenter gdf selected_country } }

/-- First-occurrence deduplication with an accumulator of already seen
values: the embedding of pandas Series.unique, which returns the
distinct values in order of first appearance. -/
def uniqueAux {α : Type} [DecidableEq α] (seen : List α) :
    List α → List α
  | [] => []
  | x :: xs =>
    if x ∈ seen then uniqueAux seen xs
    else x :: uniqueAux (x :: seen) xs

/-- pandas Series.unique: distinct values in order of first
appearance. -/
def uniqueList {α : Type} [DecidableEq α] (l : List α) : List α :=
  uniqueAux [] l

/-- country_fnids (app.py line 131): the distinct fnid values of the
forecast rows whose country equals the selection. -/
def country_fnids_of (yield_fcst : List ForecastRecord)
    (selected_country : String) : List String :=
  uniqueList ((yield_fcst.filter fun r =>
    r.country == selected_country).map ForecastRecord.fnid)

/-- The Season selector options (app.py line 135): the distinct seasons
of the forecast rows whose fnid lies in country_fnids. -/
def seasonOptions (yield_fcst : List ForecastRecord)
    (country_fnids : List String) : List String :=
  uniqueList ((yield_fcst.filter fun r =>
    decide (r.fnid ∈ country_fnids)).map ForecastRecord.season)

/-- yrs (app.py lines 140-142): the non-null years of the forecast rows
whose fnid lies in country_fnids and whose season equals the selection
(the .dropna is the filterMap over the nullable year column). -/
def availableYears (yield_fcst : List ForecastRecord)
    (country_fnids : List String) (selected_season : String) :
    List Int :=
  (yield_fcst.filter fun r =>
    decide (r.fnid ∈ country_fnids)
      && (r.season == selected_season)).filterMap ForecastRecord.year

/-- Minimum of a list of integers, junk 0 on the empty list (the
program guards emptiness before calling min). -/
def listMin : List Int → Int
  | [] => 0
  | [x] => x
  | x :: y :: ys => min x (listMin (y :: ys))

/-- Maximum of a list of integers, junk 0 on the empty list. -/
def listMax : List Int → Int
  | [] => 0
  | [x] => x
  | x :: y :: ys => max x (listMax (y :: ys))

/-- list(range(lo, hi + 1)): the integers from lo to hi inclusive. -/
def intRange (lo hi : Int) : List Int :=
  (List.range (hi + 1 - lo).toNat).map fun (i : Nat) => lo + (i : Int)

/-- year_range (app.py lines 146-147): the contiguous integer range
from the minimum to the maximum available year. -/
def yearOptions (yield_fcst : List ForecastRecord)
    (country_fnids : List String) (selected_season : String) :
    List Int :=
  let yrs := availableYears yield_fcst country_fnids selected_season
  intRange (listMin yrs) (listMax yrs)

/-- The visible outcome of one run of the Historical Forecasts page
below the selectors: the Year selectbox options, the chosen year, and
the session choropleth figure after the run. -/
structure Page2View where
  year_options : List Int
  selected_year : Int
  stored_fig : Option Figure
deriving DecidableEq

/-- One run of the Historical Forecasts page script (app.py lines
115-178) for given selector choices. The Except.error branch is the
st.warning plus st.stop taken when yrs is empty (lines 143-145): the
script halts there, no Year selectbox is built and no render is
reachable. Otherwise the Year options are year_range; if the Update
Map button was pressed, create_map runs and its figure is stored in
session state, else the previously stored figure persists. -/
def page2Run (yield_fcst : List ForecastRecord) (gdf : List Region)
    (geojson : String) (selected_variable : String)
    (selected_country : String) (selected_season : String)
    (selected_year : Int) (selected_model : String)
    (selected_lead : Int) (update : Bool) (prevFig : Option Figure) :
    Except String Page2View :=
  let country_fnids := country_fnids_of yield_fcst selected_country
  let yrs := availableYears yield_fcst country_fnids selected_season
  if yrs.isEmpty then
    Except.error "No forecast years available for the selected conditions."
  else
    let year_range := intRange (listMin yrs) (listMax yrs)
    let fig := if update then
        some (create_map yield_fcst geojson gdf selected_variable
          country_fnids selected_country selected_season selected_year
          selected_model selected_lead)
      else prevFig
    Except.ok { year_options := year_range
                selected_year := selected_year
                stored_fig := fig }

/-- The visible outcome of the region lookup on a map click on the
Yield and Climate page. crash models the IndexError raised by .iloc[0]
on an empty selection; selected carries the st.success message text. -/
inductive ClickOutcome where
  | noSelection
  | crash
  | selected (message : String)
deriving DecidableEq

/-- The lookup gdf[gdf[fnid column] == fnid] followed by .iloc[0]
(app.py line 74), embedded as the head of the filtered list: none means
the selection is empty and .iloc[0] raises IndexError. -/
def regionLookup (gdf : List Region) (fnid : String) : Option Region :=
  (gdf.filter fun g => g.fnid == fnid).head?

/-- The click handling of the Yield and Climate page (app.py lines
67-76): with no click the page shows its empty state; with a click the
fnid is looked up in gdf and .iloc[0] either raises (empty selection)
or yields the region whose admin0 and admin1 label the success
message. -/
def handleClick (gdf : List Region) (click : Option String) :
    ClickOutcome :=
  match click with
  | none => ClickOutcome.noSelection
  | some fnid =>
    match regionLookup gdf fnid with
    | none => ClickOutcome.crash
    | some r => ClickOutcome.selected (r.admin0 ++ " - " ++ r.admin1)

/-- Filtering the yield table by the clicked region (app.py line 81). -/
def filterYieldByRegion (viewer_yield : List YieldObservation)
    (fnid : String) : List YieldObservation :=
  viewer_yield.filter fun r => r.fnid == fnid

/-- Filtering the EO table by the clicked region (app.py line 82). -/
def filterEOByRegion (cape_eo : List EOObservation) (fnid : String) :
    List EOObservation :=
  cape_eo.filter fun r => r.fnid == fnid

/-- One user interaction step, as seen by the choropleth session state:
a rerun of the Yield and Climate page (a click, or none), or a rerun of
the Historical Forecasts page with the six selector choices and the
Update Map button state. -/
inductive Interaction where
  | visitPage1 (click : Option String)
  | visitPage2 (varName country season : String) (selYear : Int)
      (model : String) (lead : Int) (update : Bool)
deriving DecidableEq

/-- Whether the step presses the Update Map button (app.py line 160),
the only explicit render trigger. -/
def Interaction.isTrigger : Interaction → Bool
  | Interaction.visitPage1 _ => false
  | Interaction.visitPage2 _ _ _ _ _ _ update => update

/-- How one interaction transforms the session choropleth figure
(st.session_state.choropleth_fig, app.py lines 118-178). Page 1 never
touches it; a page 2 run that halts at st.stop leaves it unchanged;
otherwise it becomes the stored figure of the run, which is the
previous one unless Update Map was pressed. -/
def sessionStep (yield_fcst : List ForecastRecord) (gdf : List Region)
    (geojson : String) (st : Option Figure) :
    Interaction → Option Figure
  | Interaction.visitPage1 _ => st
  | Interaction.visitPage2 varName country season selYear model lead update =>
    match page2Run yield_fcst gdf geojson varName country season selYear
        model lead update st with
    | Except.error _ => st
    | Except.ok view => view.stored_fig

/-- What page 2 displays at the end of a run (app.py lines 177-178):
the stored figure when it is not none, else nothing. -/
def displayedChoropleth (st : Option Figure) : Option Figure := st

/-- The cache key of the memoized create_map: every argument except
gdf, whose leading underscore in the source excludes it from hashing. -/
structure RenderKey where
  yield_fcst : List ForecastRecord
  geojson : String
  selected_variable : String
  country_fnids : List String
  selected_country : String
  selected_season : String
  selected_year : Int
  selected_model : String
  selected_lead : Int
deriving DecidableEq

/-- The st.cache_resource store attached to create_map: an association
list from argument keys to previously returned figures. -/
structure RenderCache where
  entries : List (RenderKey × Figure)

/-- Association-list lookup by key equality. -/
def cacheFind (entries : List (RenderKey × Figure)) (k : RenderKey) :
    Option Figure :=
  match entries with
  | [] => none
  | e :: rest => if e.1 = k then some e.2 else cacheFind rest k

/-- The call st.cache_resource makes of create_map (visualizations.py
lines 66-67): on a key hit the stored figure is returned without
recomputation; on a miss create_map runs and the result is stored.
Returns the figure, the cache after the call, and whether the call was
served from the cache. -/
def cachedCreateMap (cache : RenderCache)
    (yield_fcst : List ForecastRecord) (geojson : String)
    (gdf : List Region) (selected_variable : String)
    (country_fnids : List String) (selected_country : String)
    (selected_season : String) (selected_year : Int)
    (selected_model : String) (selected_lead : Int) :
    Figure × RenderCache × Bool :=
  let key : RenderKey :=
    { yield_fcst := yield_fcst, geojson := geojson
      selected_variable := selected_variable
      country_fnids := country_fnids
      selected_country := selected_country
      selected_season := selected_season
      selected_year := selected_year
      selected_model := selected_model
      selected_lead := selected_lead }
  match cacheFind cache.entries key with
  | some fig => (fig, cache, true)
  | none =>
    let fig := create_map yield_fcst geojson gdf selected_variable
      country_fnids selected_country selected_season selected_year
      selected_model selected_lead
    (fig, { entries := (key, fig) :: cache.entries }, false)

/-- A small concrete geometry collection used to evaluate the
definitions on closed inputs. -/
def sampleGdf : List Region :=
  [ { fnid := "KE2001", admin0 := "Kenya", admin1 := "Nairobi",
      admin2 := "A", centroid_lat := -1, centroid_lon := 37 },
    { fnid := "KE2002", admin0 := "Kenya", admin1 := "Nakuru",
      admin2 := "B", centroid_lat := 0, centroid_lon := 36 },
    { fnid := "TZ1001", admin0 := "Tanzania", admin1 := "Arusha",
      admin2 := "C", centroid_lat := -3, centroid_lon := 36 } ]

/-- A small concrete forecast table: Kenya has long-season forecasts in
2018 and 2020 (a gap at 2019), Tanzania has a single short-season row
whose year is null. -/
def sampleForecasts : List ForecastRecord :=
  [ { fnid := "KE2001", country := "Kenya", admin1 := "Nairobi",
      admin2 := "A", season := "long", year := some 2018,
      model := "XGB", lead := 1, yield_fcst := 3/2,
      yield_fcst_error := 1/10, yield_fcst_perror := 5 },
    { fnid := "KE2001", country := "Kenya", admin1 := "Nairobi",
      admin2 := "A", season := "long", year := some 2020,
      model := "XGB", lead := 1, yield_fcst := 2,
      yield_fcst_error := -1/10, yield_fcst_perror := -4 },
    { fnid := "TZ1001", country := "Tanzania", admin1 := "Arusha",
      admin2 := "C", season := "short", year := none,
      model := "LR", lead := 2, yield_fcst := 1,
      yield_fcst_error := 0, yield_fcst_perror := 0 } ]

/-- A small concrete yield table, ordered by year within each region
but not globally. -/
def sampleYield : List YieldObservation :=
  [ { fnid := "KE2001", year := 2018, yield_obs := 6/5 },
    { fnid := "TZ1001", year := 2017, yield_obs := 1 },
    { fnid := "KE2001", year := 2019, yield_obs := 3/2 } ]

/-- A small concrete EO table. -/
def sampleEO : List EOObservation :=
  [ { fnid := "KE2001", date := 100, ndvi := 1/2, prcp := 10, pdry := 0,
      etos := 1, tavg := 20, gdd := 5, kdd := 0 },
    { fnid := "TZ1001", date := 90, ndvi := 2/5, prcp := 8, pdry := 1,
      etos := 2, tavg := 22, gdd := 6, kdd := 1 },
    { fnid := "KE2001", date := 110, ndvi := 3/5, prcp := 12, pdry := 0,
      etos := 1, tavg := 21, gdd := 7, kdd := 0 } ]

theorem mem_uniqueAux {α : Type} [DecidableEq α] (seen l : List α)
    (x : α) : x ∈ uniqueAux seen l ↔ x ∈ l ∧ x ∉ seen := by
  induction l generalizing seen with
  | nil => simp [uniqueAux]
  | cons y ys ih =>
    by_cases hy : y ∈ seen <;>
      simp only [uniqueAux, hy, if_pos, if_neg, not_false_iff,
        List.mem_cons, ih] <;>
      by_cases hxy : x = y <;> subst_eqs <;> simp_all

theorem mem_uniqueList {α : Type} [DecidableEq α] (l : List α)
    (x : α) : x ∈ uniqueList l ↔ x ∈ l := by
  simp [uniqueList, mem_uniqueAux]

theorem listMin_le : ∀ (l : List Int), ∀ z ∈ l, listMin l ≤ z
  | [], z, hz => absurd hz (List.not_mem_nil z)
  | [x], z, hz => by
    simp only [List.mem_singleton] at hz
    simp [listMin, hz]
  | x :: y :: ys, z, hz => by
    rcases List.mem_cons.mp hz with rfl | hz2
    · simp only [listMin]
      exact min_le_left _ _
    · have h := listMin_le (y :: ys) z hz2
      simp only [listMin]
      exact le_trans (min_le_right _ _) h

theorem listMin_mem : ∀ (l : List Int), l ≠ [] → listMin l ∈ l
  | [], h => absurd rfl h
  | [x], _ => by simp [listMin]
  | x :: y :: ys, _ => by
    have hm := listMin_mem (y :: ys) (by simp)
    rcases le_total x (listMin (y :: ys)) with h | h
    · simp [listMin, min_eq_left h]
    · simp only [listMin, min_eq_right h]
      exact List.mem_cons_of_mem x hm

theorem le_listMax : ∀ (l : List Int), ∀ z ∈ l, z ≤ listMax l
  | [], z, hz => absurd hz (List.not_mem_nil z)
  | [x], z, hz => by
    simp only [List.mem_singleton] at hz
    simp [listMax, hz]
  | x :: y :: ys, z, hz => by
    rcases List.mem_cons.mp hz with rfl | hz2
    · simp only [listMax]
      exact le_max_left _ _
    · have h := le_listMax (y :: ys) z hz2
      simp only [listMax]
      exact le_trans h (le_max_right _ _)

theorem listMax_mem : ∀ (l : List Int), l ≠ [] → listMax l ∈ l
  | [], h => absurd rfl h
  | [x], _ => by simp [listMax]
  | x :: y :: ys, _ => by
    have hm := listMax_mem (y :: ys) (by simp)
    rcases le_total (listMax (y :: ys)) x with h | h
    · simp [listMax, max_eq_left h]
    · simp only [listMax, max_eq_right h]
      exact List.mem_cons_of_mem x hm

theorem mem_intRange (lo hi y : Int) :
    y ∈ intRange lo hi ↔ lo ≤ y ∧ y ≤ hi := by
  unfold intRange
  rw [List.mem_map]
  constructor
  · rintro ⟨i, hmem, rfl⟩
    rw [List.mem_range] at hmem
    omega
  · rintro ⟨h1, h2⟩
    exact ⟨(y - lo).toNat, List.mem_range.mpr (by omega), by omega⟩

theorem sessionStep_no_trigger (yield_fcst : List ForecastRecord)
    (gdf : List Region) (geojson : String) (st : Option Figure)
    (i : Interaction) (h : i.isTrigger = false) :
    sessionStep yield_fcst gdf geojson st i = st := by
  cases i with
  | visitPage1 c => rfl
  | visitPage2 v c s y m l u =>
    simp only [Interaction.isTrigger] at h
    subst h
    by_cases hy : (availableYears yield_fcst
        (country_fnids_of yield_fcst c) s).isEmpty = true
    · simp [sessionStep, page2Run, hy]
    · simp [sessionStep, page2Run, hy]

theorem foldl_sessionStep_const (yield_fcst : List ForecastRecord)
    (gdf : List Region) (geojson : String) :
    ∀ (steps : List Interaction) (st : Option Figure),
      (∀ i ∈ steps, i.isTrigger = false) →
      List.foldl (sessionStep yield_fcst gdf geojson) st steps = st
  | [], _, _ => rfl
  | i :: is, st, h => by
    rw [List.foldl_cons,
      sessionStep_no_trigger yield_fcst gdf geojson st i
        (h i (List.mem_cons_self i is))]
    exact foldl_sessionStep_const yield_fcst gdf geojson is st
      fun j hj => h j (List.mem_cons_of_mem i hj)

theorem cacheFind_cons_self (k : RenderKey) (v : Figure)
    (rest : List (RenderKey × Figure)) :
    cacheFind ((k, v) :: rest) k = some v := by
  simp [cacheFind]

/-- C1: a record is in the subset produced by the choropleth filter of
create_map exactly when it is a row of the forecast table whose fnid
lies in the selected country fnid set and whose season, year, model and
lead each equal the selector value; records matching only some of the
five predicates are excluded. -/
theorem forecast_filter_exact (yield_fcst : List ForecastRecord)
    (country_fnids : List String) (selected_season : String)
    (selected_year : Int) (selected_model : String)
    (selected_lead : Int) (r : ForecastRecord) :
    r ∈ filterForecast yield_fcst country_fnids selected_season
        selected_year selected_model selected_lead ↔
      r ∈ yield_fcst ∧ r.fnid ∈ country_fnids
        ∧ r.season = selected_season ∧ r.year = some selected_year
        ∧ r.model = selected_model ∧ r.lead = selected_lead := by
  simp [filterForecast, List.mem_filter, and_assoc]

/-- C2 as stated is false on the code: a click whose fnid is absent
from the gdf regions collection reaches .iloc[0] on an empty selection
(app.py line 74), which raises IndexError; no empty-state message is
produced. Here a one-region collection is clicked with a foreign id and
the outcome is the crash, not a message. -/
theorem click_absent_region_counterexample :
    handleClick
      [{ fnid := "KE2001", admin0 := "Kenya", admin1 := "Nairobi",
         admin2 := "A", centroid_lat := -1, centroid_lon := 37 }]
      (some "TZ9999") = ClickOutcome.crash := by rfl

/-- C2 amended: for every map click whose extracted region id is absent
from the regions collection, the lookup raises IndexError (the
exception escapes; the empty-state message appears only when no click
has occurred). -/
theorem click_absent_region_raises (gdf : List Region) (fnid : String)
    (h : regionLookup gdf fnid = none) :
    handleClick gdf (some fnid) = ClickOutcome.crash := by
  simp [handleClick, h]

theorem click_absent_region_raises_witness :
    regionLookup sampleGdf "TZ9999" = none
      ∧ handleClick sampleGdf (some "TZ9999") = ClickOutcome.crash :=
  ⟨by decide, click_absent_region_raises sampleGdf "TZ9999" (by decide)⟩

/-- C3: when the conjunctive filter is empty, create_map still returns
a figure (it raises no exception: the embedding is a total function and
the trace-adding branch is simply skipped) whose trace list is empty
and whose layout is complete, with the usual style, zoom and the
country centroid center. -/
theorem create_map_empty_filter (yield_fcst : List ForecastRecord)
    (geojson : String) (gdf : List Region) (selected_variable : String)
    (country_fnids : List String)
    (selected_country selected_season : String) (selected_year : Int)
    (selected_model : String) (selected_lead : Int)
    (h : filterForecast yield_fcst country_fnids selected_season
        selected_year selected_model selected_lead = []) :
    create_map yield_fcst geojson gdf selected_variable country_fnids
        selected_country selected_season selected_year selected_model
        selected_lead =
      { traces := []
        layout := { mapbox_style := "carto-positron"
                    mapbox_zoom := 4
                    mapbox_center := countryCenter gdf selected_country } } := by
  simp [create_map, h]

theorem create_map_empty_filter_witness :
    filterForecast sampleForecasts ["KE2001", "KE2002"] "short" 2020
        "XGB" 1 = []
      ∧ create_map sampleForecasts "geo" sampleGdf "yield_fcst"
          ["KE2001", "KE2002"] "Kenya" "short" 2020 "XGB" 1 =
        { traces := []
          layout := { mapbox_style := "carto-positron"
                      mapbox_zoom := 4
                      mapbox_center := countryCenter sampleGdf "Kenya" } } :=
  ⟨by decide,
   create_map_empty_filter sampleForecasts "geo" sampleGdf "yield_fcst"
     ["KE2001", "KE2002"] "Kenya" "short" 2020 "XGB" 1 (by decide)⟩

/-- C4: for a region id present in the region collection, the per-region
yield and EO filters return exactly the rows whose fnid equals it, both
filtered tables are sublists of the inputs (relative order preserved),
and when the yield table is ordered by year within each region the
filtered yield rows are non-decreasing in year. -/
theorem region_filter_exact_ordered (gdf : List Region)
    (viewer_yield : List YieldObservation) (cape_eo : List EOObservation)
    (fnid : String) (_hreg : ∃ g ∈ gdf, g.fnid = fnid)
    (hord : viewer_yield.Pairwise
      fun a b => a.fnid = b.fnid → a.year ≤ b.year) :
    (∀ r, r ∈ filterYieldByRegion viewer_yield fnid ↔
        r ∈ viewer_yield ∧ r.fnid = fnid)
      ∧ (∀ e, e ∈ filterEOByRegion cape_eo fnid ↔
          e ∈ cape_eo ∧ e.fnid = fnid)
      ∧ List.Sublist (filterYieldByRegion viewer_yield fnid) viewer_yield
      ∧ List.Sublist (filterEOByRegion cape_eo fnid) cape_eo
      ∧ (filterYieldByRegion viewer_yield fnid).Pairwise
          fun a b => a.year ≤ b.year := by
  refine ⟨?_, ?_, ?_, ?_, ?_⟩
  · intro r
    simp [filterYieldByRegion, List.mem_filter]
  · intro e
    simp [filterEOByRegion, List.mem_filter]
  · exact List.filter_sublist _
  · exact List.filter_sublist _
  · have hsub : (filterYieldByRegion viewer_yield fnid).Pairwise
        fun a b => a.fnid = b.fnid → a.year ≤ b.year :=
      hord.sublist (List.filter_sublist _)
    refine hsub.imp_of_mem ?_
    intro a b ha hb hab
    have ha2 : a.fnid = fnid :=
      by simpa using (List.mem_filter.mp ha).2
    have hb2 : b.fnid = fnid :=
      by simpa using (List.mem_filter.mp hb).2
    exact hab (ha2.trans hb2.symm)

theorem region_filter_exact_ordered_witness :
    (∃ g ∈ sampleGdf, g.fnid = "KE2001")
      ∧ sampleYield.Pairwise
          (fun a b => a.fnid = b.fnid → a.year ≤ b.year)
      ∧ ((∀ r, r ∈ filterYieldByRegion sampleYield "KE2001" ↔
            r ∈ sampleYield ∧ r.fnid = "KE2001")
        ∧ (∀ e, e ∈ filterEOByRegion sampleEO "KE2001" ↔
            e ∈ sampleEO ∧ e.fnid = "KE2001")
        ∧ List.Sublist (filterYieldByRegion sampleYield "KE2001")
            sampleYield
        ∧ List.Sublist (filterEOByRegion sampleEO "KE2001") sampleEO
        ∧ (filterYieldByRegion sampleYield "KE2001").Pairwise
            fun a b => a.year ≤ b.year) :=
  ⟨by decide, by decide,
   region_filter_exact_ordered sampleGdf sampleYield sampleEO "KE2001"
     (by decide) (by decide)⟩

/-- C5: when the forecast table has no row with a non-null year whose
fnid lies in the selected country fnid set and whose season equals the
selection, the Historical Forecasts run halts at st.stop with the
specific no-data warning: no Year selectbox is built and no choropleth
render is reachable. -/
theorem no_years_halts (yield_fcst : List ForecastRecord)
    (gdf : List Region) (geojson varName country season : String)
    (selYear : Int) (model : String) (lead : Int) (update : Bool)
    (prevFig : Option Figure)
    (h : availableYears yield_fcst (country_fnids_of yield_fcst country)
        season = []) :
    page2Run yield_fcst gdf geojson varName country season selYear model
        lead update prevFig =
      Except.error
        "No forecast years available for the selected conditions." := by
  simp [page2Run, h]

theorem no_years_halts_witness :
    availableYears sampleForecasts
        (country_fnids_of sampleForecasts "Tanzania") "short" = []
      ∧ page2Run sampleForecasts sampleGdf "geo" "yield_fcst" "Tanzania"
          "short" 2020 "LR" 2 true none =
        Except.error
          "No forecast years available for the selected conditions." :=
  ⟨by decide,
   no_years_halts sampleForecasts sampleGdf "geo" "yield_fcst" "Tanzania"
     "short" 2020 "LR" 2 true none (by decide)⟩

/-- C6: the session choropleth figure changes only when the Update Map
button fires. Over any sequence of interactions none of which presses
the trigger (Yield and Climate page visits, Historical Forecasts visits
with any selector values), the stored figure after the sequence equals
the one before it, starting from any state including the initial none,
and what page 2 displays is unchanged accordingly. -/
theorem choropleth_persists_without_trigger
    (yield_fcst : List ForecastRecord) (gdf : List Region)
    (geojson : String) (st : Option Figure) (steps : List Interaction)
    (h : ∀ i ∈ steps, i.isTrigger = false) :
    List.foldl (sessionStep yield_fcst gdf geojson) st steps = st
      ∧ displayedChoropleth
          (List.foldl (sessionStep yield_fcst gdf geojson) st steps)
        = displayedChoropleth st := by
  have key := foldl_sessionStep_const yield_fcst gdf geojson steps st h
  exact ⟨key, by rw [key]⟩

theorem choropleth_persists_without_trigger_witness :
    (∀ i ∈ [Interaction.visitPage1 (some "KE2001"),
            Interaction.visitPage2 "yield_fcst" "Kenya" "long" 2019
              "XGB" 1 false,
            Interaction.visitPage1 none], i.isTrigger = false)
      ∧ List.foldl (sessionStep sampleForecasts sampleGdf "geo")
          (none : Option Figure)
          [Interaction.visitPage1 (some "KE2001"),
           Interaction.visitPage2 "yield_fcst" "Kenya" "long" 2019
             "XGB" 1 false,
           Interaction.visitPage1 none] = none
      ∧ displayedChoropleth
          (List.foldl (sessionStep sampleForecasts sampleGdf "geo")
            (none : Option Figure)
            [Interaction.visitPage1 (some "KE2001"),
             Interaction.visitPage2 "yield_fcst" "Kenya" "long" 2019
               "XGB" 1 false,
             Interaction.visitPage1 none])
        = displayedChoropleth (none : Option Figure) :=
  ⟨by decide,
   choropleth_persists_without_trigger sampleForecasts sampleGdf "geo"
     none
     [Interaction.visitPage1 (some "KE2001"),
      Interaction.visitPage2 "yield_fcst" "Kenya" "long" 2019 "XGB" 1
        false,
      Interaction.visitPage1 none]
     (by decide)⟩

/-- C7: with fixed inputs, calling the memoized create_map twice with
the same selector tuple yields the same figure both times, and the
second call is served from the render cache (its hit flag is true and
the figure returned is the stored one rather than a recomputation);
determinism holds because the embedded create_map is a pure function of
its arguments. -/
theorem cached_render_idempotent (cache : RenderCache)
    (yield_fcst : List ForecastRecord) (geojson : String)
    (gdf : List Region) (selected_variable : String)
    (country_fnids : List String)
    (selected_country selected_season : String) (selected_year : Int)
    (selected_model : String) (selected_lead : Int) :
    (cachedCreateMap
        (cachedCreateMap cache yield_fcst geojson gdf selected_variable
          country_fnids selected_country selected_season selected_year
          selected_model selected_lead).2.1
        yield_fcst geojson gdf selected_variable country_fnids
        selected_country selected_season selected_year selected_model
        selected_lead).1 =
      (cachedCreateMap cache yield_fcst geojson gdf selected_variable
        country_fnids selected_country selected_season selected_year
        selected_model selected_lead).1
      ∧ (cachedCreateMap
          (cachedCreateMap cache yield_fcst geojson gdf
            selected_variable country_fnids selected_country
            selected_season selected_year selected_model
            selected_lead).2.1
          yield_fcst geojson gdf selected_variable country_fnids
          selected_country selected_season selected_year selected_model
          selected_lead).2.2 = true := by
  simp only [cachedCreateMap]
  cases hfind : cacheFind cache.entries
      { yield_fcst := yield_fcst, geojson := geojson
        selected_variable := selected_variable
        country_fnids := country_fnids
        selected_country := selected_country
        selected_season := selected_season
        selected_year := selected_year
        selected_model := selected_model
        selected_lead := selected_lead } with
  | none => simp [hfind, cacheFind_cons_self]
  | some fig => simp [hfind]

/-- C8: the Season selector options are exactly the distinct seasons of
the forecast rows whose fnid lies in the selected country fnid set, and
that set is itself exactly the distinct fnids of the rows of the
selected country; both lists are recomputed as functions of the chosen
country. -/
theorem season_options_union (yield_fcst : List ForecastRecord)
    (selected_country : String) (s : String) :
    (s ∈ seasonOptions yield_fcst
        (country_fnids_of yield_fcst selected_country) ↔
      ∃ r ∈ yield_fcst,
        r.fnid ∈ country_fnids_of yield_fcst selected_country
          ∧ r.season = s)
    ∧ (∀ f, f ∈ country_fnids_of yield_fcst selected_country ↔
        ∃ r ∈ yield_fcst,
          r.country = selected_country ∧ r.fnid = f) := by
  constructor
  · simp [seasonOptions, uniqueList, mem_uniqueAux, List.mem_map,
      List.mem_filter, and_assoc]
  · intro f
    simp [country_fnids_of, uniqueList, mem_uniqueAux, List.mem_map,
      List.mem_filter, and_assoc]

/-- C9: the rendered map is centered on the arithmetic mean of the
centroid latitudes and of the centroid longitudes of the gdf regions
whose admin0 equals the selected country (stated for a country with at
least one region, where the mean is defined). -/
theorem map_center_mean_centroid (yield_fcst : List ForecastRecord)
    (geojson : String) (gdf : List Region) (selected_variable : String)
    (country_fnids : List String)
    (selected_country selected_season : String) (selected_year : Int)
    (selected_model : String) (selected_lead : Int)
    (h : gdf.filter (fun g => g.admin0 == selected_country) ≠ []) :
    (create_map yield_fcst geojson gdf selected_variable country_fnids
        selected_country selected_season selected_year selected_model
        selected_lead).layout.mapbox_center =
      some
        (((gdf.filter fun g => g.admin0 == selected_country).map
            Region.centroid_lat).sum
          / ((gdf.filter fun g => g.admin0 == selected_country).length : ℚ),
         ((gdf.filter fun g => g.admin0 == selected_country).map
            Region.centroid_lon).sum
          / ((gdf.filter fun g => g.admin0 == selected_country).length : ℚ)) := by
  simp [create_map, countryCenter, List.isEmpty_iff, h]

theorem map_center_mean_centroid_witness :
    sampleGdf.filter (fun g => g.admin0 == "Kenya") ≠ []
      ∧ (create_map sampleForecasts "geo" sampleGdf "yield_fcst"
          ["KE2001", "KE2002"] "Kenya" "long" 2018 "XGB" 1).layout.mapbox_center =
        some
          (((sampleGdf.filter fun g => g.admin0 == "Kenya").map
              Region.centroid_lat).sum
            / ((sampleGdf.filter fun g => g.admin0 == "Kenya").length : ℚ),
           ((sampleGdf.filter fun g => g.admin0 == "Kenya").map
              Region.centroid_lon).sum
            / ((sampleGdf.filter fun g => g.admin0 == "Kenya").length : ℚ)) :=
  ⟨by decide,
   map_center_mean_centroid sampleForecasts "geo" sampleGdf "yield_fcst"
     ["KE2001", "KE2002"] "Kenya" "long" 2018 "XGB" 1 (by decide)⟩

/-- C10: for a (country, season) selection with at least one available
year, the Historical Forecasts run succeeds and its Year options are
exactly the contiguous integer range from the minimum to the maximum
available year inclusive: an integer is offered precisely when it lies
between the two, so intermediate years without any forecast row are
offered as well (and such a year then makes the conjunctive filter
empty). The min and max named here are genuinely attained available
years and bound all of them. -/
theorem year_options_contiguous_range (yield_fcst : List ForecastRecord)
    (gdf : List Region) (geojson varName country season : String)
    (selYear : Int) (model : String) (lead : Int) (update : Bool)
    (prevFig : Option Figure)
    (h : availableYears yield_fcst (country_fnids_of yield_fcst country)
        season ≠ []) :
    ∃ view, page2Run yield_fcst gdf geojson varName country season
        selYear model lead update prevFig = Except.ok view
      ∧ view.year_options = yearOptions yield_fcst
          (country_fnids_of yield_fcst country) season
      ∧ (∀ y : Int, y ∈ view.year_options ↔
          listMin (availableYears yield_fcst
              (country_fnids_of yield_fcst country) season) ≤ y
            ∧ y ≤ listMax (availableYears yield_fcst
              (country_fnids_of yield_fcst country) season))
      ∧ listMin (availableYears yield_fcst
            (country_fnids_of yield_fcst country) season)
          ∈ availableYears yield_fcst
            (country_fnids_of yield_fcst country) season
      ∧ (∀ z ∈ availableYears yield_fcst
            (country_fnids_of yield_fcst country) season,
          listMin (availableYears yield_fcst
            (country_fnids_of yield_fcst country) season) ≤ z)
      ∧ listMax (availableYears yield_fcst
            (country_fnids_of yield_fcst country) season)
          ∈ availableYears yield_fcst
            (country_fnids_of yield_fcst country) season
      ∧ (∀ z ∈ availableYears yield_fcst
            (country_fnids_of yield_fcst country) season,
          z ≤ listMax (availableYears yield_fcst
            (country_fnids_of yield_fcst country) season)) := by
  have hempty : (availableYears yield_fcst
      (country_fnids_of yield_fcst country) season).isEmpty = false := by
    simpa [List.isEmpty_iff] using h
  have heq : page2Run yield_fcst gdf geojson varName country season
      selYear model lead update prevFig =
      Except.ok
        { year_options := intRange
            (listMin (availableYears yield_fcst
              (country_fnids_of yield_fcst country) season))
            (listMax (availableYears yield_fcst
              (country_fnids_of yield_fcst country) season))
          selected_year := selYear
          stored_fig := if update then
              some (create_map yield_fcst geojson gdf varName
                (country_fnids_of yield_fcst country) country season
                selYear model lead)
            else prevFig } := by
    simp [page2Run, hempty]
  refine ⟨_, heq, rfl, ?_, listMin_mem _ h,
    fun z hz => listMin_le _ z hz, listMax_mem _ h,
    fun z hz => le_listMax _ z hz⟩
  intro y
  exact mem_intRange _ _ y

theorem year_options_contiguous_range_witness :
    availableYears sampleForecasts
        (country_fnids_of sampleForecasts "Kenya") "long" ≠ []
      ∧ (∃ view, page2Run sampleForecasts sampleGdf "geo" "yield_fcst"
            "Kenya" "long" 2019 "XGB" 1 false none = Except.ok view
          ∧ view.year_options = yearOptions sampleForecasts
              (country_fnids_of sampleForecasts "Kenya") "long"
          ∧ (∀ y : Int, y ∈ view.year_options ↔
              listMin (availableYears sampleForecasts
                  (country_fnids_of sampleForecasts "Kenya") "long") ≤ y
                ∧ y ≤ listMax (availableYears sampleForecasts
                  (country_fnids_of sampleForecasts "Kenya") "long"))
          ∧ listMin (availableYears sampleForecasts
                (country_fnids_of sampleForecasts "Kenya") "long")
              ∈ availableYears sampleForecasts
                (country_fnids_of sampleForecasts "Kenya") "long"
          ∧ (∀ z ∈ availableYears sampleForecasts
                (country_fnids_of sampleForecasts "Kenya") "long",
              listMin (availableYears sampleForecasts
                (country_fnids_of sampleForecasts "Kenya") "long") ≤ z)
          ∧ listMax (availableYears sampleForecasts
                (country_fnids_of sampleForecasts "Kenya") "long")
              ∈ availableYears sampleForecasts
                (country_fnids_of sampleForecasts "Kenya") "long"
          ∧ (∀ z ∈ availableYears sampleForecasts
                (country_fnids_of sampleForecasts "Kenya") "long",
              z ≤ listMax (availableYears sampleForecasts
                (country_fnids_of sampleForecasts "Kenya") "long"))) :=
  ⟨by decide,
   year_options_contiguous_range sampleForecasts sampleGdf "geo"
     "yield_fcst" "Kenya" "long" 2019 "XGB" 1 false none (by decide)⟩
